import Mathlib

/-!
# Verification of the cash-flow forecasting engine (`cash_flowpred.py`)

Shallow embedding of the forecasting core of the repository: the input
model (`CashFlowInput`), the projection engine (`CashFlowPredictor.predict`
and its helpers), and the aggregator (`CashFlowPredictor.get_summary` and
the derived chart/serialization views).

Modelling conventions:
* Python `float` arithmetic is embedded as exact real arithmetic (`ℝ`);
  `x ** y` on floats with non-negative base is `Real.rpow`.
* Python `dict[str, float]` values are insertion-ordered association lists
  `List (String × ℝ)`; `dictAdd`/`dictSet` reproduce
  `d[k] += v` / `d[k] = v` with Python's append-new-key-at-end order.
* The calendar label (`strftime("%b %Y")` from `datetime.now()`) is a
  wall-clock dependency that the spec declares immaterial; it is embedded
  as the day offset `30 * month` used to build the label.
* Python `Optional` fields are `Option`; Python truthiness of an optional
  float (`if self.inputs.savings_goal:`) is `some g` with `g ≠ 0`.
* Mutation of `self.predictions` is explicit state passing: `predict`
  returns the returned list together with the updated predictor;
  `self.inputs = inputs` in `__init__` aliases the caller's config object,
  so the caller's view of the config after construction is the
  `CashFlowPredictor.inputs` field.
* `self.predictions[-1]` (which raises `IndexError` on an empty list) is
  embedded through `Option`: `get_summary` returns `none` where the Python
  code would raise.
-/

/-- Risk levels for cash flow forecast (`RiskLevel` enum). -/
inductive RiskLevel where
  | low
  | moderate
  | high
  | critical
  deriving DecidableEq, Repr

/-- Categories for income sources (`IncomeCategory` enum). -/
inductive IncomeCategory where
  | salary
  | investments
  | freelance
  | business
  | rental
  | other
  deriving DecidableEq, Repr

/-- The `.value` string of an `IncomeCategory` enum member. -/
def IncomeCategory.value : IncomeCategory → String
  | .salary => "salary"
  | .investments => "investments"
  | .freelance => "freelance"
  | .business => "business"
  | .rental => "rental"
  | .other => "other"

/-- A one-time transaction (`Transaction` dataclass). Month indices are
natural numbers: the spec's input model requires month indices `≥ 0`. -/
structure Transaction where
  month : ℕ
  amount : ℝ
  description : String
  category : Option String

/-- Recurring income with category (`RecurringIncome` dataclass). -/
structure RecurringIncome where
  amount : ℝ
  category : IncomeCategory
  start_month : ℕ
  end_month : Option ℕ

/-- Input parameters for cash flow prediction (`CashFlowInput` dataclass).
The prediction horizon is a natural number (spec: horizon `≥ 0`). -/
structure CashFlowInput where
  current_balance : ℝ
  recurring_income : List RecurringIncome
  monthly_expenses : List (String × ℝ)
  one_time_expenses : List Transaction
  one_time_income : List Transaction
  prediction_months : ℕ
  warning_threshold : ℝ
  critical_threshold : Option ℝ
  savings_goal : Option ℝ
  expense_growth_rate : ℝ
  income_growth_rate : ℝ
  emergency_fund_target : Option ℝ

/-- One warning string of the per-month warning list, abstracted to its
kind plus the numeric payload that is interpolated into the message. -/
inductive Warning where
  /-- Message `CRITICAL: Negative balance! Overdraft of $...` (payload `abs balance`). -/
  | overdraft (amount : ℝ)
  /-- Message `HIGH RISK: Balance ($...) critically low` (payload the balance). -/
  | highRisk (balance : ℝ)
  /-- Message `WARNING: Balance ($...) below threshold ($...)`. -/
  | belowThreshold (balance threshold : ℝ)
  /-- Message `$... short of savings goal` (payload `goal - balance`). -/
  | savingsShortfall (shortfall : ℝ)
  /-- Message `Spending exceeds income by $...` (payload `abs net_flow`). -/
  | spendingExceedsIncome (amount : ℝ)
  /-- Message `Below emergency fund target by $...` (payload `target - balance`). -/
  | emergencyFundShortfall (amount : ℝ)

/-- Is this warning the savings-goal shortfall warning? -/
def Warning.isSavingsShortfall : Warning → Bool
  | .savingsShortfall _ => true
  | _ => false

/-- Prediction for a single month (`MonthlyPrediction` dataclass).
`date` is the day offset `30 * month` feeding the calendar label. -/
structure MonthlyPrediction where
  month : ℕ
  date : ℕ
  opening_balance : ℝ
  income : ℝ
  expenses : ℝ
  closing_balance : ℝ
  net_flow : ℝ
  income_breakdown : List (String × ℝ)
  expense_breakdown : List (String × ℝ)
  warnings : List Warning
  risk_level : RiskLevel

/-- Summary statistics for the forecast period (`ForecastSummary`
dataclass). Month labels are the `date` day offsets of the snapshots. -/
structure ForecastSummary where
  initial_balance : ℝ
  final_balance : ℝ
  total_change : ℝ
  total_income : ℝ
  total_expenses : ℝ
  total_net_flow : ℝ
  average_monthly_balance : ℝ
  median_monthly_balance : ℝ
  lowest_balance : ℝ
  lowest_balance_month : ℕ
  highest_balance : ℝ
  highest_balance_month : ℕ
  months_below_threshold : ℕ
  months_negative : ℕ
  is_sustainable : Bool
  overall_risk_level : RiskLevel
  savings_rate : ℝ
  emergency_fund_months : ℝ
  income_by_category : List (String × ℝ)
  volatility_score : ℝ

/-- Python `d[k] = v` on an insertion-ordered dict rendered as an
association list: replace the value if the key is present (keeping its
position), otherwise append the new key at the end. -/
def dictSet (bd : List (String × ℝ)) (k : String) (v : ℝ) : List (String × ℝ) :=
  if bd.any (fun e => e.1 == k) then
    bd.map (fun e => if e.1 = k then (e.1, v) else e)
  else bd ++ [(k, v)]

/-- Python `d[k] += v` if `k in d` else `d[k] = v` on an insertion-ordered
dict rendered as an association list. -/
def dictAdd (bd : List (String × ℝ)) (k : String) (v : ℝ) : List (String × ℝ) :=
  if bd.any (fun e => e.1 == k) then
    bd.map (fun e => if e.1 = k then (e.1, e.2 + v) else e)
  else bd ++ [(k, v)]

/-- Total amount stored in a breakdown under key `k` (`0` if absent;
equals the stored value when keys are unique, as the engine maintains). -/
def bdSum (bd : List (String × ℝ)) (k : String) : ℝ :=
  ((bd.filter (fun e => e.1 == k)).map Prod.snd).sum

/-- Embeds `calculate_monthly_expense`: total monthly expenses with the annual
growth rate applied by year fraction, plus the per-category breakdown. -/
noncomputable def calculate_monthly_expense (inp : CashFlowInput) (month : ℕ) :
    ℝ × List (String × ℝ) :=
  let years : ℝ := (month : ℝ) / 12
  let expense_breakdown := inp.monthly_expenses.map
    (fun e => (e.1, e.2 * (1 + inp.expense_growth_rate) ^ years))
  ((expense_breakdown.map Prod.snd).sum, expense_breakdown)

/-- The loop body of `calculate_monthly_income`: fold one recurring
source into the category breakdown. A source contributes when
`start_month ≤ month` and (`end_month` unset or `month ≤ end_month`). -/
noncomputable def incomeStep (inp : CashFlowInput) (month : ℕ)
    (bd : List (String × ℝ)) (income : RecurringIncome) : List (String × ℝ) :=
  if income.start_month ≤ month then
    match income.end_month with
    | none => dictAdd bd income.category.value
        (income.amount * (1 + inp.income_growth_rate) ^ ((month : ℝ) / 12))
    | some e =>
      if month ≤ e then
        dictAdd bd income.category.value
          (income.amount * (1 + inp.income_growth_rate) ^ ((month : ℝ) / 12))
      else bd
  else bd

/-- Embeds `calculate_monthly_income`: monthly recurring income with growth rate
applied and category breakdown. -/
noncomputable def calculate_monthly_income (inp : CashFlowInput) (month : ℕ) :
    ℝ × List (String × ℝ) :=
  let income_breakdown := inp.recurring_income.foldl (incomeStep inp month) []
  ((income_breakdown.map Prod.snd).sum, income_breakdown)

/-- Embeds `get_one_time_transactions`: (one-time income, one-time expenses)
summed over the transactions whose `month` field equals `month`. -/
def get_one_time_transactions (inp : CashFlowInput) (month : ℕ) : ℝ × ℝ :=
  (((inp.one_time_income.filter (fun t => t.month == month)).map Transaction.amount).sum,
   ((inp.one_time_expenses.filter (fun t => t.month == month)).map Transaction.amount).sum)

/-- Embeds `calculate_risk_level`: risk from balance and trend, in priority
order, first match wins. After construction `critical_threshold` is
always set, so the `getD 0` default is never exercised by the engine. -/
noncomputable def calculate_risk_level (inp : CashFlowInput) (balance net_flow : ℝ)
    (month : ℕ) : RiskLevel :=
  if balance < 0 then .critical
  else if balance < inp.critical_threshold.getD 0 then .high
  else if balance < inp.warning_threshold then .moderate
  else if net_flow < 0 ∧ 0 < month then .moderate
  else .low

/-- One iteration of the `predict` loop body: the snapshot for `month`
given the running balance at loop entry. -/
noncomputable def predictStep (inp : CashFlowInput) (balance : ℝ) (month : ℕ) :
    MonthlyPrediction :=
  if month = 0 then
    { month := month
      date := 30 * month
      opening_balance := balance
      income := 0
      expenses := 0
      closing_balance := balance
      net_flow := 0
      income_breakdown := []
      expense_breakdown := []
      warnings := []
      risk_level := calculate_risk_level inp balance 0 month }
  else
    let ri := calculate_monthly_income inp month
    let me := calculate_monthly_expense inp month
    let ot := get_one_time_transactions inp month
    let income_breakdown := if ot.1 > 0 then dictSet ri.2 "one_time" ot.1 else ri.2
    let expense_breakdown := if ot.2 > 0 then dictSet me.2 "one_time" ot.2 else me.2
    let total_income := ri.1 + ot.1
    let total_expenses := me.1 + ot.2
    let net_flow := total_income - total_expenses
    let opening_balance := balance
    let balance := balance + net_flow
    let warnings :=
      (if balance < 0 then [Warning.overdraft |balance|]
       else if balance < inp.critical_threshold.getD 0 then [Warning.highRisk balance]
       else if balance < inp.warning_threshold then
         [Warning.belowThreshold balance inp.warning_threshold]
       else [])
      ++ (match inp.savings_goal with
          | some g => if g ≠ 0 ∧ balance < g then [Warning.savingsShortfall (g - balance)] else []
          | none => [])
      ++ (if net_flow < 0 then [Warning.spendingExceedsIncome |net_flow|] else [])
      ++ (match inp.emergency_fund_target with
          | some t => if t ≠ 0 ∧ balance < t then [Warning.emergencyFundShortfall (t - balance)] else []
          | none => [])
    { month := month
      date := 30 * month
      opening_balance := opening_balance
      income := total_income
      expenses := total_expenses
      closing_balance := balance
      net_flow := net_flow
      income_breakdown := income_breakdown
      expense_breakdown := expense_breakdown
      warnings := warnings
      risk_level := calculate_risk_level inp balance net_flow month }

/-- The `predict` loop over the listed month indices, threading the
running balance. -/
noncomputable def predictLoop (inp : CashFlowInput) : List ℕ → ℝ → List MonthlyPrediction
  | [], _ => []
  | m :: ms, balance =>
    let q := predictStep inp balance m
    q :: predictLoop inp ms q.closing_balance

/-- Predictor state: the (aliased) input config and the accumulated
`self.predictions` list. -/
structure CashFlowPredictor where
  inputs : CashFlowInput
  predictions : List MonthlyPrediction

/-- Embeds `CashFlowPredictor.__init__`: stores the caller's config (aliased, so
`inputs` is the caller-visible object after construction), starts with an
empty prediction list, and writes the derived default
`warning_threshold * 0.5` into the config's `critical_threshold` field
when that field is unset. -/
noncomputable def CashFlowPredictor.init (inputs : CashFlowInput) : CashFlowPredictor :=
  { inputs :=
      { inputs with
        critical_threshold :=
          some (inputs.critical_threshold.getD (inputs.warning_threshold * 0.5)) }
    predictions := [] }

/-- Embeds `predict`: generates the snapshots for months `0 .. prediction_months`,
appends them to the stored list, and returns `self.predictions` (the whole
accumulated list) together with the updated predictor state. -/
noncomputable def CashFlowPredictor.predict (p : CashFlowPredictor) :
    List MonthlyPrediction × CashFlowPredictor :=
  let fresh := predictLoop p.inputs (List.range (p.inputs.prediction_months + 1))
    p.inputs.current_balance
  let preds := p.predictions ++ fresh
  (preds, { p with predictions := preds })

/-- The snapshot list a single `predict` call on a freshly constructed
predictor returns: the projection of a config. -/
noncomputable def projectFresh (c : CashFlowInput) : List MonthlyPrediction :=
  ((CashFlowPredictor.init c).predict).1

/-- Embeds `np.mean` of a list of reals. -/
noncomputable def mean (l : List ℝ) : ℝ := l.sum / l.length

/-- Embeds `np.std` (population standard deviation) of a list of reals. -/
noncomputable def popStdDev (l : List ℝ) : ℝ :=
  Real.sqrt ((l.map (fun x => (x - mean l) ^ 2)).sum / l.length)

/-- Embeds `np.median`: middle element of the sorted list, or the average of the
two middle elements for even length. -/
noncomputable def median (l : List ℝ) : ℝ :=
  let s := l.insertionSort (fun a b => a ≤ b)
  if l.length % 2 = 1 then s.getD (l.length / 2) 0
  else (s.getD (l.length / 2 - 1) 0 + s.getD (l.length / 2) 0) / 2

/-- Embeds `min` of a nonempty Python list (the empty case is unreachable where
the engine calls it). -/
noncomputable def listMin : List ℝ → ℝ
  | [] => 0
  | b :: bs => bs.foldl min b

/-- Embeds `max` of a nonempty Python list (the empty case is unreachable where
the engine calls it). -/
noncomputable def listMax : List ℝ → ℝ
  | [] => 0
  | b :: bs => bs.foldl max b

/-- The body of `get_summary` as a pure function of the inputs and the
snapshot list: `none` models the `IndexError` that `predictions[-1]`
would raise on an empty list (unreachable from the public entry points,
which project first). -/
noncomputable def summarize (inputs : CashFlowInput) (preds : List MonthlyPrediction) :
    Option ForecastSummary :=
  match preds.getLast? with
  | none => none
  | some final_prediction =>
    let balances := preds.map MonthlyPrediction.closing_balance
    let total_income := (preds.map MonthlyPrediction.income).sum
    let total_expenses := (preds.map MonthlyPrediction.expenses).sum
    let income_by_category := preds.foldl
      (fun acc q => q.income_breakdown.foldl (fun a e => dictAdd a e.1 e.2) acc) []
    let months_below_threshold :=
      (preds.filter (fun q => decide (q.closing_balance < inputs.warning_threshold))).length
    let months_negative := (preds.filter (fun q => decide (q.closing_balance < 0))).length
    let risks := preds.map MonthlyPrediction.risk_level
    let overall_risk :=
      if 0 < risks.count RiskLevel.critical then RiskLevel.critical
      else if 2 < risks.count RiskLevel.high then RiskLevel.high
      else if ((preds.length : ℝ) / 2) < (risks.count RiskLevel.moderate : ℝ) then
        RiskLevel.moderate
      else RiskLevel.low
    let volatility :=
      if 1 < balances.length then
        (if 0 < mean balances then popStdDev balances / mean balances else 0)
      else 0
    let savings_rate :=
      if 0 < total_income then (total_income - total_expenses) / total_income * 100 else 0
    let avg_monthly_expense :=
      if 0 < preds.length then total_expenses / (preds.length : ℝ) else 0
    let emergency_fund_months :=
      if 0 < avg_monthly_expense then final_prediction.closing_balance / avg_monthly_expense
      else 0
    let lowest_balance := listMin balances
    let highest_balance := listMax balances
    let lowest_pred :=
      (preds.find? (fun q => decide (q.closing_balance = lowest_balance))).getD final_prediction
    let highest_pred :=
      (preds.find? (fun q => decide (q.closing_balance = highest_balance))).getD final_prediction
    some
      { initial_balance := inputs.current_balance
        final_balance := final_prediction.closing_balance
        total_change := final_prediction.closing_balance - inputs.current_balance
        total_income := total_income
        total_expenses := total_expenses
        total_net_flow := total_income - total_expenses
        average_monthly_balance := mean balances
        median_monthly_balance := median balances
        lowest_balance := lowest_balance
        lowest_balance_month := lowest_pred.date
        highest_balance := highest_balance
        highest_balance_month := highest_pred.date
        months_below_threshold := months_below_threshold
        months_negative := months_negative
        is_sustainable := decide (inputs.warning_threshold < final_prediction.closing_balance)
        overall_risk_level := overall_risk
        savings_rate := savings_rate
        emergency_fund_months := emergency_fund_months
        income_by_category := income_by_category
        volatility_score := volatility }

/-- Embeds `get_summary`: if the stored prediction list is empty, runs `predict`
first, then summarizes `self.predictions`. Returns the summary together
with the post-call predictor state. -/
noncomputable def CashFlowPredictor.get_summary (p : CashFlowPredictor) :
    Option (ForecastSummary × CashFlowPredictor) :=
  let q := if p.predictions.isEmpty then (p.predict).2 else p
  match summarize q.inputs q.predictions with
  | none => none
  | some s => some (s, q)

/-- The chart-ready view built by `get_chart_data` (the `actual := none`
placeholders of `predicted_vs_actual` are omitted as constants). -/
structure ChartData where
  labels : List ℕ
  balance : List ℝ
  income : List ℝ
  expenses : List ℝ
  net_flow : List ℝ
  predicted_vs_actual : List (ℕ × ℝ)

/-- Embeds `get_chart_data`: runs `predict` first when the stored list is empty,
then projects the stored snapshot list into the chart series. -/
noncomputable def CashFlowPredictor.get_chart_data (p : CashFlowPredictor) :
    ChartData × CashFlowPredictor :=
  let q := if p.predictions.isEmpty then (p.predict).2 else p
  ({ labels := q.predictions.map MonthlyPrediction.date
     balance := q.predictions.map MonthlyPrediction.closing_balance
     income := q.predictions.map MonthlyPrediction.income
     expenses := q.predictions.map MonthlyPrediction.expenses
     net_flow := q.predictions.map MonthlyPrediction.net_flow
     predicted_vs_actual := q.predictions.map (fun r => (r.date, r.closing_balance)) }, q)

/-- Embeds `get_income_pie_chart_data`: category, amount and percentage of total
income for each summary income category. -/
noncomputable def CashFlowPredictor.get_income_pie_chart_data (p : CashFlowPredictor) :
    Option (List (String × ℝ × ℝ) × CashFlowPredictor) :=
  (p.get_summary).map (fun sp =>
    ((sp.1.income_by_category.map (fun e =>
        (e.1, e.2, if 0 < sp.1.total_income then e.2 / sp.1.total_income * 100 else 0))), sp.2))

/-- The nested data mapping `to_json` serializes (string rendering
abstracted away). -/
structure JsonExport where
  summary : ForecastSummary
  predictions : List MonthlyPrediction
  chart_data : ChartData
  income_chart_data : List (String × ℝ × ℝ)

/-- Embeds `to_json`: runs `predict` first when the stored list is empty, then
assembles the summary, the full stored snapshot list, and the chart views. -/
noncomputable def CashFlowPredictor.to_json (p : CashFlowPredictor) :
    Option (JsonExport × CashFlowPredictor) :=
  let q := if p.predictions.isEmpty then (p.predict).2 else p
  match q.get_summary with
  | none => none
  | some sp =>
    let cd := sp.2.get_chart_data
    (cd.2.get_income_pie_chart_data).map (fun pie =>
      ({ summary := sp.1
         predictions := pie.2.predictions
         chart_data := cd.1
         income_chart_data := pie.1 }, pie.2))

/-- Iterates `predict` `k` times: `k`-fold iteration of `predict` on a predictor state. -/
noncomputable def predictIter (p : CashFlowPredictor) : ℕ → CashFlowPredictor
  | 0 => p
  | k + 1 => ((predictIter p k).predict).2

/-- Activation-window check of `calculate_monthly_income`:
`start_month ≤ m` and (`end_month` unset or `m ≤ end_month`), both bounds
inclusive. -/
def activeB (s : RecurringIncome) (m : ℕ) : Bool :=
  decide (s.start_month ≤ m) &&
    (match s.end_month with
     | none => true
     | some e => decide (m ≤ e))

/-- Modelled from the spec: the amount a recurring source contributes to
month `m` per the claim — `amount × (1 + income_growth_rate)^(m/12)`
exactly when the source is active at `m` (growth by absolute month index,
not source age), else nothing. -/
noncomputable def specIncomeContribution (inp : CashFlowInput) (m : ℕ)
    (s : RecurringIncome) : ℝ :=
  if activeB s m then s.amount * (1 + inp.income_growth_rate) ^ ((m : ℝ) / 12) else 0

/-- The critical threshold the engine uses after construction: the
caller's value, or the derived default `warning_threshold * 0.5`. -/
noncomputable def effectiveCriticalThreshold (c : CashFlowInput) : ℝ :=
  c.critical_threshold.getD (c.warning_threshold * 0.5)

/-- Modelled from the spec, amended for Python truthiness: the ordered
warning list for a month `m ≥ 1` — exactly one of the three balance
warnings (overdraft / high-risk / below-threshold, strict comparisons,
else none of the three), then a savings-goal shortfall when the goal is
set *to a nonzero value* and the closing balance is below it, then a
spending-exceeds-income warning whenever net flow is negative, then an
emergency-fund shortfall when the target is set *to a nonzero value* and
the closing balance is below it. -/
noncomputable def specWarnings (c : CashFlowInput) (closing net_flow : ℝ) : List Warning :=
  (if closing < 0 then [Warning.overdraft |closing|]
   else if closing < effectiveCriticalThreshold c then [Warning.highRisk closing]
   else if closing < c.warning_threshold then
     [Warning.belowThreshold closing c.warning_threshold]
   else [])
  ++ (match c.savings_goal with
      | some g => if g ≠ 0 ∧ closing < g then [Warning.savingsShortfall (g - closing)] else []
      | none => [])
  ++ (if net_flow < 0 then [Warning.spendingExceedsIncome |net_flow|] else [])
  ++ (match c.emergency_fund_target with
      | some t =>
        if t ≠ 0 ∧ closing < t then [Warning.emergencyFundShortfall (t - closing)] else []
      | none => [])

/-- Config for the C6 counterexample: `savings_goal` is *set* (to `0`),
and month 1 overdraws the account. -/
noncomputable def cfg6 : CashFlowInput :=
  { current_balance := 0
    recurring_income := []
    monthly_expenses := []
    one_time_expenses := [{ month := 1, amount := 5, description := "boiler", category := none }]
    one_time_income := []
    prediction_months := 1
    warning_threshold := 0
    critical_threshold := none
    savings_goal := some 0
    expense_growth_rate := 0
    income_growth_rate := 0
    emergency_fund_target := none }

/-- Config for the C7 witness. -/
noncomputable def cfg7 : CashFlowInput :=
  { current_balance := 100
    recurring_income := []
    monthly_expenses := [("rent", 40)]
    one_time_expenses := []
    one_time_income := []
    prediction_months := 1
    warning_threshold := 10
    critical_threshold := none
    savings_goal := none
    expense_growth_rate := 0
    income_growth_rate := 0
    emergency_fund_target := none }

/-- Transaction beyond the horizon for the C7 witness. -/
noncomputable def txn7 : Transaction :=
  { month := 5, amount := 3, description := "gift", category := none }

/-- Config for the C8 witness. -/
noncomputable def cfg8w : CashFlowInput :=
  { current_balance := 0
    recurring_income := []
    monthly_expenses := []
    one_time_expenses := []
    one_time_income := []
    prediction_months := 0
    warning_threshold := 0
    critical_threshold := none
    savings_goal := none
    expense_growth_rate := 0
    income_growth_rate := 0
    emergency_fund_target := none }

/-- A concrete snapshot for the C8 witness. -/
noncomputable def snap8 : MonthlyPrediction :=
  { month := 0
    date := 0
    opening_balance := 0
    income := 0
    expenses := 0
    closing_balance := 0
    net_flow := 0
    income_breakdown := []
    expense_breakdown := []
    warnings := []
    risk_level := RiskLevel.low }

/-- Config for the C8 counterexample: balances `[1, -4]`, so the mean is
negative and nonzero with two snapshots. -/
noncomputable def cfg8 : CashFlowInput :=
  { current_balance := 1
    recurring_income := []
    monthly_expenses := []
    one_time_expenses := [{ month := 1, amount := 5, description := "repair", category := none }]
    one_time_income := []
    prediction_months := 1
    warning_threshold := 0
    critical_threshold := none
    savings_goal := none
    expense_growth_rate := 0
    income_growth_rate := 0
    emergency_fund_target := none }

/-- Config for the C1 counterexample. -/
noncomputable def cfg1 : CashFlowInput :=
  { current_balance := 7
    recurring_income := []
    monthly_expenses := []
    one_time_expenses := []
    one_time_income := []
    prediction_months := 0
    warning_threshold := 1
    critical_threshold := none
    savings_goal := none
    expense_growth_rate := 0
    income_growth_rate := 0
    emergency_fund_target := none }

/-- Config for the C9 counterexample: `critical_threshold` unset. -/
noncomputable def cfg9 : CashFlowInput :=
  { current_balance := 100
    recurring_income := []
    monthly_expenses := []
    one_time_expenses := []
    one_time_income := []
    prediction_months := 2
    warning_threshold := 4
    critical_threshold := none
    savings_goal := none
    expense_growth_rate := 0
    income_growth_rate := 0
    emergency_fund_target := none }

/-! ## Basic facts about the projection loop -/

theorem predictLoop_nil (inp : CashFlowInput) (b : ℝ) : predictLoop inp [] b = [] := rfl

theorem predictLoop_cons (inp : CashFlowInput) (m : ℕ) (ms : List ℕ) (b : ℝ) :
    predictLoop inp (m :: ms) b =
      predictStep inp b m :: predictLoop inp ms (predictStep inp b m).closing_balance := rfl

theorem predictStep_month (inp : CashFlowInput) (b : ℝ) (m : ℕ) :
    (predictStep inp b m).month = m := by
  unfold predictStep
  split <;> rfl

theorem predictStep_opening (inp : CashFlowInput) (b : ℝ) (m : ℕ) :
    (predictStep inp b m).opening_balance = b := by
  unfold predictStep
  split <;> rfl

theorem predictStep_closing (inp : CashFlowInput) (b : ℝ) (m : ℕ) :
    (predictStep inp b m).closing_balance =
      (predictStep inp b m).opening_balance + (predictStep inp b m).net_flow := by
  unfold predictStep
  split
  · exact (add_zero b).symm
  · rfl

theorem predictStep_risk (inp : CashFlowInput) (b : ℝ) (m : ℕ) :
    (predictStep inp b m).risk_level =
      calculate_risk_level inp (predictStep inp b m).closing_balance
        (predictStep inp b m).net_flow (predictStep inp b m).month := by
  unfold predictStep
  split <;> rfl

theorem predictLoop_length (inp : CashFlowInput) :
    ∀ (ms : List ℕ) (b : ℝ), (predictLoop inp ms b).length = ms.length := by
  intro ms
  induction ms with
  | nil => intro b; rfl
  | cons m ms ih => intro b; simpa [predictLoop] using ih _

theorem predictLoop_map_month (inp : CashFlowInput) :
    ∀ (ms : List ℕ) (b : ℝ),
      (predictLoop inp ms b).map MonthlyPrediction.month = ms := by
  intro ms
  induction ms with
  | nil => intro b; rfl
  | cons m ms ih =>
    intro b
    simp [predictLoop, predictStep_month, ih]

theorem predictLoop_forall (inp : CashFlowInput) (P : MonthlyPrediction → Prop)
    (h : ∀ (b : ℝ) (m : ℕ), P (predictStep inp b m)) :
    ∀ (ms : List ℕ) (b : ℝ), List.Forall P (predictLoop inp ms b) := by
  intro ms
  induction ms with
  | nil => intro b; exact trivial
  | cons m ms ih =>
    intro b
    rw [predictLoop_cons, List.forall_cons]
    exact ⟨h b m, ih _⟩

theorem predictLoop_chain (inp : CashFlowInput) :
    ∀ (ms : List ℕ) (b : ℝ),
      List.Chain' (fun a q => q.opening_balance = a.closing_balance)
        (predictLoop inp ms b) := by
  intro ms
  induction ms with
  | nil => intro b; simp [predictLoop]
  | cons m ms ih =>
    intro b
    refine List.chain'_cons'.mpr ⟨?_, ih _⟩
    intro q hq
    cases ms with
    | nil => simp [predictLoop] at hq
    | cons m' ms' =>
      simp only [predictLoop, List.head?_cons, Option.mem_def, Option.some.injEq] at hq
      subst hq
      exact predictStep_opening _ _ _

theorem init_inputs (c : CashFlowInput) :
    (CashFlowPredictor.init c).inputs =
      { c with critical_threshold := some (c.critical_threshold.getD (c.warning_threshold * 0.5)) } := rfl

theorem projectFresh_eq (c : CashFlowInput) :
    projectFresh c =
      predictLoop (CashFlowPredictor.init c).inputs
        (List.range (c.prediction_months + 1)) c.current_balance := rfl

theorem projectFresh_head (c : CashFlowInput) :
    (projectFresh c).head? =
      some (predictStep (CashFlowPredictor.init c).inputs c.current_balance 0) := by
  rw [projectFresh_eq, List.range_succ_eq_map]
  rfl

theorem projectFresh_length (c : CashFlowInput) :
    (projectFresh c).length = c.prediction_months + 1 := by
  rw [projectFresh_eq, predictLoop_length, List.length_range]

theorem projectFresh_ne_nil (c : CashFlowInput) : projectFresh c ≠ [] := by
  intro h
  have := projectFresh_length c
  rw [h] at this
  exact (Nat.succ_ne_zero _) this.symm

theorem projectFresh_forall (c : CashFlowInput) (P : MonthlyPrediction → Prop)
    (h : ∀ (b : ℝ) (m : ℕ), P (predictStep (CashFlowPredictor.init c).inputs b m)) :
    List.Forall P (projectFresh c) := by
  rw [projectFresh_eq]
  exact predictLoop_forall _ P h _ _

/-- Claim C2. For every config (horizon `h ≥ 0` by the input model),
`predict` on a fresh predictor returns exactly `h + 1` snapshots whose
month indices are `0, 1, ..., h`, in strictly ascending order; a horizon
of `0` yields a single month-0 snapshot. -/
theorem C2_project_length_and_months (c : CashFlowInput) :
    (projectFresh c).length = c.prediction_months + 1 ∧
    (projectFresh c).map MonthlyPrediction.month = List.range (c.prediction_months + 1) ∧
    List.Pairwise (· < ·) ((projectFresh c).map MonthlyPrediction.month) ∧
    (projectFresh { c with prediction_months := 0 }).map MonthlyPrediction.month = [0] := by
  have hmap : (projectFresh c).map MonthlyPrediction.month
      = List.range (c.prediction_months + 1) := by
    rw [projectFresh_eq, predictLoop_map_month]
  refine ⟨projectFresh_length c, hmap, ?_, ?_⟩
  · rw [hmap]; exact List.pairwise_lt_range _
  · rw [projectFresh_eq, predictLoop_map_month]
    rfl

/-- Claim C3. Month 0's snapshot has `opening = closing = current_balance`,
`income = expenses = net_flow = 0` and no warnings; every snapshot
satisfies `closing = opening + net_flow`, and each snapshot's opening
balance is the previous snapshot's closing balance. -/
theorem C3_month0_and_accounting_identities (c : CashFlowInput) :
    ((projectFresh c).head?.map MonthlyPrediction.month) = some 0 ∧
    ((projectFresh c).head?.map MonthlyPrediction.opening_balance) = some c.current_balance ∧
    ((projectFresh c).head?.map MonthlyPrediction.closing_balance) = some c.current_balance ∧
    ((projectFresh c).head?.map MonthlyPrediction.income) = some 0 ∧
    ((projectFresh c).head?.map MonthlyPrediction.expenses) = some 0 ∧
    ((projectFresh c).head?.map MonthlyPrediction.net_flow) = some 0 ∧
    ((projectFresh c).head?.map MonthlyPrediction.warnings) = some [] ∧
    List.Forall (fun q => q.closing_balance = q.opening_balance + q.net_flow)
      (projectFresh c) ∧
    List.Chain' (fun a q => q.opening_balance = a.closing_balance) (projectFresh c) := by
  refine ⟨?_, ?_, ?_, ?_, ?_, ?_, ?_, ?_, ?_⟩
  · rw [projectFresh_head]; rfl
  · rw [projectFresh_head]; rfl
  · rw [projectFresh_head]; rfl
  · rw [projectFresh_head]; rfl
  · rw [projectFresh_head]; rfl
  · rw [projectFresh_head]; rfl
  · rw [projectFresh_head]; rfl
  · exact projectFresh_forall c _ (fun b m => predictStep_closing _ b m)
  · rw [projectFresh_eq]; exact predictLoop_chain _ _ _

/-- Claim C4. Risk classification is evaluated in strict priority order with
the first match winning, all balance comparisons strict (`<`, so a balance
exactly at a threshold is not below it), and recomputing the
classification from a snapshot's own fields reproduces its stored risk
level. -/
theorem C4_risk_classification (inp c : CashFlowInput) (b nf : ℝ) (m : ℕ) :
    (calculate_risk_level inp b nf m = RiskLevel.critical ↔ b < 0) ∧
    (calculate_risk_level inp b nf m = RiskLevel.high ↔
      ¬ b < 0 ∧ b < inp.critical_threshold.getD 0) ∧
    (calculate_risk_level inp b nf m = RiskLevel.moderate ↔
      ¬ b < 0 ∧ ¬ b < inp.critical_threshold.getD 0 ∧
        (b < inp.warning_threshold ∨ (nf < 0 ∧ 0 < m))) ∧
    (calculate_risk_level inp b nf m = RiskLevel.low ↔
      ¬ b < 0 ∧ ¬ b < inp.critical_threshold.getD 0 ∧ ¬ b < inp.warning_threshold ∧
        ¬ (nf < 0 ∧ 0 < m)) ∧
    List.Forall
      (fun q => q.risk_level =
        calculate_risk_level (CashFlowPredictor.init c).inputs
          q.closing_balance q.net_flow q.month)
      (projectFresh c) := by
  refine ⟨?_, ?_, ?_, ?_, ?_⟩
  · unfold calculate_risk_level; split_ifs <;> simp_all
  · unfold calculate_risk_level; split_ifs <;> simp_all
  · unfold calculate_risk_level; split_ifs <;> simp_all
  · unfold calculate_risk_level; split_ifs <;> simp_all
  · exact projectFresh_forall c _ (fun b m => predictStep_risk _ b m)

/-! ## Association-list (Python dict) lemmas -/

theorem bdSum_nil (k : String) : bdSum [] k = 0 := rfl

theorem bdSum_cons (e : String × ℝ) (bd : List (String × ℝ)) (k : String) :
    bdSum (e :: bd) k = (if e.1 = k then e.2 else 0) + bdSum bd k := by
  by_cases h : e.1 = k <;> simp [bdSum, List.filter_cons, h]

theorem dictAdd_nil (k : String) (v : ℝ) : dictAdd [] k v = [(k, v)] := rfl

theorem map_if_no_key (bd : List (String × ℝ)) (k : String) (v : ℝ)
    (h : ∀ x ∈ bd, x.1 ≠ k) :
    bd.map (fun e => if e.1 = k then (e.1, e.2 + v) else e) = bd := by
  have : ∀ x ∈ bd, (fun e : String × ℝ => if e.1 = k then (e.1, e.2 + v) else e) x = id x := by
    intro x hx
    simp [if_neg (h x hx)]
  rw [List.map_congr_left this, List.map_id]

theorem dictAdd_cons_ne (e : String × ℝ) (bd : List (String × ℝ)) (k : String) (v : ℝ)
    (h : e.1 ≠ k) : dictAdd (e :: bd) k v = e :: dictAdd bd k v := by
  have hek : (e.1 == k) = false := by simpa using h
  unfold dictAdd
  by_cases hb : bd.any (fun x => x.1 == k) <;>
    simp [List.any_cons, hek, hb, if_neg h]

theorem dictAdd_cons_eq (e : String × ℝ) (bd : List (String × ℝ)) (v : ℝ)
    (h : ∀ x ∈ bd, x.1 ≠ e.1) :
    dictAdd (e :: bd) e.1 v = (e.1, e.2 + v) :: bd := by
  unfold dictAdd
  simp only [List.any_cons, beq_self_eq_true, Bool.true_or, if_true]
  rw [List.map_cons, if_pos rfl, map_if_no_key bd e.1 v h]

theorem dictAdd_keys (bd : List (String × ℝ)) (k : String) (v : ℝ) :
    (dictAdd bd k v).map Prod.fst =
      if bd.any (fun e => e.1 == k) then bd.map Prod.fst
      else bd.map Prod.fst ++ [k] := by
  unfold dictAdd
  by_cases hb : bd.any (fun e => e.1 == k)
  · simp only [hb, if_true]
    rw [List.map_map]
    apply List.map_congr_left
    intro x _
    by_cases hx : x.1 = k <;> simp [hx]
  · simp [hb]

theorem dictAdd_nodup (bd : List (String × ℝ)) (k : String) (v : ℝ)
    (h : (bd.map Prod.fst).Nodup) : ((dictAdd bd k v).map Prod.fst).Nodup := by
  rw [dictAdd_keys]
  by_cases hb : bd.any (fun e => e.1 == k)
  · simpa [hb] using h
  · have hk : k ∉ bd.map Prod.fst := by
      intro hmem
      rcases List.mem_map.mp hmem with ⟨x, hx, hxk⟩
      exact hb (List.any_eq_true.mpr ⟨x, hx, by simp [hxk]⟩)
    simp [hb, List.nodup_append, h, hk]

theorem dictAdd_sum (bd : List (String × ℝ)) (k : String) (v : ℝ)
    (h : (bd.map Prod.fst).Nodup) :
    ((dictAdd bd k v).map Prod.snd).sum = (bd.map Prod.snd).sum + v := by
  induction bd with
  | nil => simp [dictAdd_nil]
  | cons e bd ih =>
    by_cases he : e.1 = k
    · have hkeys : ∀ x ∈ bd, x.1 ≠ e.1 := by
        intro x hx hxe
        have : e.1 ∈ bd.map Prod.fst := List.mem_map.mpr ⟨x, hx, hxe⟩
        exact (List.nodup_cons.mp h).1 this
      have := dictAdd_cons_eq e bd v hkeys
      rw [he] at this
      rw [this]
      simp [add_assoc, add_comm, add_left_comm]
    · rw [dictAdd_cons_ne e bd k v he]
      have := ih (List.nodup_cons.mp h).2
      simp only [List.map_cons, List.sum_cons, this]
      ring

theorem dictAdd_bdSum (bd : List (String × ℝ)) (k : String) (v : ℝ) (target : String)
    (h : (bd.map Prod.fst).Nodup) :
    bdSum (dictAdd bd k v) target = bdSum bd target + (if k = target then v else 0) := by
  induction bd with
  | nil =>
    rw [dictAdd_nil]
    by_cases ht : k = target <;> simp [bdSum_cons, bdSum_nil, ht]
  | cons e bd ih =>
    by_cases he : e.1 = k
    · have hkeys : ∀ x ∈ bd, x.1 ≠ e.1 := by
        intro x hx hxe
        have : e.1 ∈ bd.map Prod.fst := List.mem_map.mpr ⟨x, hx, hxe⟩
        exact (List.nodup_cons.mp h).1 this
      have hrw := dictAdd_cons_eq e bd v hkeys
      rw [he] at hrw
      rw [hrw, bdSum_cons, bdSum_cons]
      subst he
      by_cases ht : e.1 = target <;> simp [ht] <;> ring
    · rw [dictAdd_cons_ne e bd k v he, bdSum_cons, bdSum_cons,
        ih (List.nodup_cons.mp h).2]
      ring

/-! ## Recurring income/expense formulas (C5) -/



theorem incomeStep_eq (inp : CashFlowInput) (m : ℕ) (bd : List (String × ℝ))
    (s : RecurringIncome) :
    incomeStep inp m bd s =
      if activeB s m then
        dictAdd bd s.category.value
          (s.amount * (1 + inp.income_growth_rate) ^ ((m : ℝ) / 12))
      else bd := by
  unfold incomeStep activeB
  by_cases h1 : s.start_month ≤ m
  · cases he : s.end_month with
    | none => simp [h1]
    | some e => by_cases h2 : m ≤ e <;> simp [h1, h2]
  · simp [h1]

theorem incomeStep_nodup (inp : CashFlowInput) (m : ℕ) (bd : List (String × ℝ))
    (s : RecurringIncome) (h : (bd.map Prod.fst).Nodup) :
    ((incomeStep inp m bd s).map Prod.fst).Nodup := by
  rw [incomeStep_eq]
  cases hb : activeB s m
  · simpa [hb] using h
  · simpa [hb] using dictAdd_nodup _ _ _ h

theorem incomeFold_sum (inp : CashFlowInput) (m : ℕ) :
    ∀ (l : List RecurringIncome) (bd : List (String × ℝ)),
      (bd.map Prod.fst).Nodup →
      ((l.foldl (incomeStep inp m) bd).map Prod.snd).sum
        = (bd.map Prod.snd).sum + (l.map (specIncomeContribution inp m)).sum := by
  intro l
  induction l with
  | nil => intro bd _; simp
  | cons s l ih =>
    intro bd h
    rw [List.foldl_cons, List.map_cons, List.sum_cons,
      ih _ (incomeStep_nodup inp m bd s h)]
    have hsum : ((incomeStep inp m bd s).map Prod.snd).sum
        = (bd.map Prod.snd).sum + specIncomeContribution inp m s := by
      rw [incomeStep_eq]
      simp only [specIncomeContribution]
      cases hb : activeB s m
      · simp [hb]
      · simpa [hb] using dictAdd_sum _ _ _ h
    rw [hsum]
    ring

theorem incomeFold_bdSum (inp : CashFlowInput) (m : ℕ) (k : String) :
    ∀ (l : List RecurringIncome) (bd : List (String × ℝ)),
      (bd.map Prod.fst).Nodup →
      bdSum (l.foldl (incomeStep inp m) bd) k
        = bdSum bd k +
          (l.map (fun s =>
            if s.category.value = k then specIncomeContribution inp m s else 0)).sum := by
  intro l
  induction l with
  | nil => intro bd _; simp
  | cons s l ih =>
    intro bd h
    rw [List.foldl_cons, List.map_cons, List.sum_cons,
      ih _ (incomeStep_nodup inp m bd s h)]
    have hstep : bdSum (incomeStep inp m bd s) k
        = bdSum bd k +
          (if s.category.value = k then specIncomeContribution inp m s else 0) := by
      rw [incomeStep_eq]
      simp only [specIncomeContribution]
      cases hb : activeB s m
      · simp [hb]
      · simpa [hb] using dictAdd_bdSum bd s.category.value _ k h
    rw [hstep]
    ring

theorem sum_map_filter {α : Type} (p : α → Bool) (f : α → ℝ) (l : List α) :
    ((l.filter p).map f).sum = (l.map (fun a => if p a then f a else 0)).sum := by
  induction l with
  | nil => rfl
  | cons a l ih => cases hp : p a <;> simp [List.filter_cons, hp, ih]

theorem IncomeCategory.value_injective (a b : IncomeCategory) :
    a.value = b.value ↔ a = b := by
  cases a <;> cases b <;> simp [IncomeCategory.value]

/-- Claim C5. For every month, each recurring source contributes
`amount × (1 + income_growth_rate)^(m/12)` exactly when active (bounds
inclusive), summed by category; every expense-map entry contributes
`amount × (1 + expense_growth_rate)^(m/12)` even when zero; growth
depends on the absolute month index only, and zero growth rates make the
amounts constant across months. -/
theorem C5_growth_and_breakdowns (inp : CashFlowInput) (m : ℕ) (cat : IncomeCategory) :
    (calculate_monthly_income inp m).1
        = (inp.recurring_income.map (specIncomeContribution inp m)).sum ∧
    bdSum (calculate_monthly_income inp m).2 cat.value
        = ((inp.recurring_income.filter (fun s => decide (s.category = cat))).map
            (specIncomeContribution inp m)).sum ∧
    (calculate_monthly_expense inp m).2
        = inp.monthly_expenses.map
            (fun e => (e.1, e.2 * (1 + inp.expense_growth_rate) ^ ((m : ℝ) / 12))) ∧
    (calculate_monthly_expense inp m).1
        = (inp.monthly_expenses.map
            (fun e => e.2 * (1 + inp.expense_growth_rate) ^ ((m : ℝ) / 12))).sum ∧
    (calculate_monthly_income { inp with income_growth_rate := 0 } m).1
        = (inp.recurring_income.map (fun s => if activeB s m then s.amount else 0)).sum ∧
    (calculate_monthly_expense { inp with expense_growth_rate := 0 } m).2
        = inp.monthly_expenses := by
  refine ⟨?_, ?_, ?_, ?_, ?_, ?_⟩
  · simpa [calculate_monthly_income]
      using incomeFold_sum inp m inp.recurring_income [] (by simp)
  · have h2 := incomeFold_bdSum inp m cat.value inp.recurring_income [] (by simp)
    rw [sum_map_filter]
    have hcongr : ∀ s ∈ inp.recurring_income,
        (if s.category.value = cat.value then specIncomeContribution inp m s else 0)
          = (if decide (s.category = cat) = true then specIncomeContribution inp m s else 0) := by
      intro s _
      by_cases hc : s.category = cat
      · simp [hc]
      · have hv : ¬ s.category.value = cat.value :=
          fun hval => hc ((IncomeCategory.value_injective _ _).mp hval)
        simp [hc, hv]
    calc bdSum (calculate_monthly_income inp m).2 cat.value
        = (inp.recurring_income.map (fun s =>
            if s.category.value = cat.value then specIncomeContribution inp m s else 0)).sum := by
          simpa [calculate_monthly_income, bdSum_nil] using h2
      _ = (inp.recurring_income.map (fun s =>
            if decide (s.category = cat) = true then specIncomeContribution inp m s else 0)).sum := by
          exact congrArg List.sum (List.map_congr_left hcongr)
  · rfl
  · simp only [calculate_monthly_expense, List.map_map]
    rfl
  · have h5 := incomeFold_sum { inp with income_growth_rate := 0 } m
      inp.recurring_income [] (by simp)
    have hcongr : ∀ s ∈ inp.recurring_income,
        specIncomeContribution { inp with income_growth_rate := 0 } m s
          = (if activeB s m then s.amount else 0) := by
      intro s _
      simp [specIncomeContribution, Real.one_rpow]
    calc (calculate_monthly_income { inp with income_growth_rate := 0 } m).1
        = (inp.recurring_income.map
            (specIncomeContribution { inp with income_growth_rate := 0 } m)).sum := by
          simpa [calculate_monthly_income] using h5
      _ = (inp.recurring_income.map (fun s => if activeB s m then s.amount else 0)).sum :=
          congrArg List.sum (List.map_congr_left hcongr)
  · have hcongr : ∀ e ∈ inp.monthly_expenses,
        (e.1, e.2 * (1 + ({ inp with expense_growth_rate := 0 } : CashFlowInput).expense_growth_rate)
            ^ ((m : ℝ) / 12)) = id e := by
      intro e _
      simp [Real.one_rpow]
    show inp.monthly_expenses.map _ = inp.monthly_expenses
    rw [List.map_congr_left hcongr, List.map_id]

/-! ## Warning generation (C6) -/



theorem predictStep_warnings (c : CashFlowInput) (b : ℝ) (m : ℕ) (hm : m ≠ 0) :
    (predictStep (CashFlowPredictor.init c).inputs b m).warnings =
      specWarnings c (predictStep (CashFlowPredictor.init c).inputs b m).closing_balance
        (predictStep (CashFlowPredictor.init c).inputs b m).net_flow := by
  unfold predictStep
  rw [if_neg hm]
  rfl

/-- Claim C6, amended. For every month `m ≥ 1`, the snapshot's warning
list contains, in order, exactly the applicable warnings: one of the
three balance warnings (or none), then the savings-goal shortfall when
`savings_goal` is set to a nonzero value and the balance is below it,
then the spending-exceeds-income warning when net flow is negative, then
the emergency-fund shortfall when `emergency_fund_target` is set to a
nonzero value and the balance is below it. (Amended from the claim: a
goal/target set to `0` is treated as unset, by Python truthiness.) -/
theorem C6_warnings_amended (c : CashFlowInput) :
    List.Forall
      (fun q => q.month ≠ 0 → q.warnings = specWarnings c q.closing_balance q.net_flow)
      (projectFresh c) := by
  apply projectFresh_forall
  intro b m hm
  rw [predictStep_month] at hm
  exact predictStep_warnings c b m hm


/-- Counterexample for claim C6. With `savings_goal` set to `0` and month 1's
closing balance `-5 < 0 = savings_goal`, the claim demands a
savings-shortfall warning, but the month-1 warning list is exactly
`[overdraft 5, spendingExceedsIncome 5]` — no savings-shortfall warning
(Python truthiness treats the zero goal as unset). -/
theorem C6_counterexample :
    cfg6.savings_goal = some 0 ∧
    (((projectFresh cfg6).get? 1).map (fun q => (q.closing_balance, q.warnings)))
      = some (-5, [Warning.overdraft 5, Warning.spendingExceedsIncome 5]) ∧
    ([Warning.overdraft 5, Warning.spendingExceedsIncome 5].any
        Warning.isSavingsShortfall) = false ∧
    ((-5 : ℝ) < (0 : ℝ)) := by
  refine ⟨rfl, ?_, rfl, by norm_num⟩
  have hlist : projectFresh cfg6
      = [predictStep (CashFlowPredictor.init cfg6).inputs 0 0,
         predictStep (CashFlowPredictor.init cfg6).inputs 0 1] := rfl
  have hcb : (predictStep (CashFlowPredictor.init cfg6).inputs 0 1).closing_balance = -5 := by
    norm_num [predictStep, calculate_monthly_income, calculate_monthly_expense,
      get_one_time_transactions, CashFlowPredictor.init, cfg6]
  have hnf : (predictStep (CashFlowPredictor.init cfg6).inputs 0 1).net_flow = -5 := by
    norm_num [predictStep, calculate_monthly_income, calculate_monthly_expense,
      get_one_time_transactions, CashFlowPredictor.init, cfg6]
  have hw : (predictStep (CashFlowPredictor.init cfg6).inputs 0 1).warnings
      = [Warning.overdraft 5, Warning.spendingExceedsIncome 5] := by
    rw [predictStep_warnings cfg6 0 1 (by norm_num), hcb, hnf]
    norm_num [specWarnings, effectiveCriticalThreshold, cfg6, abs_of_nonpos]
  rw [hlist]
  simp [hcb, hw]

/-! ## One-time transactions (C7) -/

theorem get_one_time_frame_income (c : CashFlowInput) (t : Transaction) (m : ℕ)
    (hne : t.month ≠ m) :
    get_one_time_transactions
        (CashFlowPredictor.init { c with one_time_income := c.one_time_income ++ [t] }).inputs m
      = get_one_time_transactions (CashFlowPredictor.init c).inputs m := by
  have hbeq : (t.month == m) = false := by simpa using hne
  unfold get_one_time_transactions
  simp [CashFlowPredictor.init, List.filter_append, List.filter_cons, hbeq]

theorem get_one_time_frame_expense (c : CashFlowInput) (t : Transaction) (m : ℕ)
    (hne : t.month ≠ m) :
    get_one_time_transactions
        (CashFlowPredictor.init { c with one_time_expenses := c.one_time_expenses ++ [t] }).inputs m
      = get_one_time_transactions (CashFlowPredictor.init c).inputs m := by
  have hbeq : (t.month == m) = false := by simpa using hne
  unfold get_one_time_transactions
  simp [CashFlowPredictor.init, List.filter_append, List.filter_cons, hbeq]

theorem predictStep_frame_income (c : CashFlowInput) (t : Transaction) (b : ℝ) (m : ℕ)
    (hne : t.month ≠ m) :
    predictStep (CashFlowPredictor.init { c with one_time_income := c.one_time_income ++ [t] }).inputs b m
      = predictStep (CashFlowPredictor.init c).inputs b m := by
  by_cases hm : m = 0
  · subst hm; rfl
  · unfold predictStep
    rw [if_neg hm, if_neg hm, get_one_time_frame_income c t m hne]
    rfl

theorem predictStep_frame_expense (c : CashFlowInput) (t : Transaction) (b : ℝ) (m : ℕ)
    (hne : t.month ≠ m) :
    predictStep (CashFlowPredictor.init { c with one_time_expenses := c.one_time_expenses ++ [t] }).inputs b m
      = predictStep (CashFlowPredictor.init c).inputs b m := by
  by_cases hm : m = 0
  · subst hm; rfl
  · unfold predictStep
    rw [if_neg hm, if_neg hm, get_one_time_frame_expense c t m hne]
    rfl

theorem predictLoop_frame_income (c : CashFlowInput) (t : Transaction) :
    ∀ (ms : List ℕ) (b : ℝ), (∀ m ∈ ms, t.month ≠ m) →
      predictLoop (CashFlowPredictor.init { c with one_time_income := c.one_time_income ++ [t] }).inputs ms b
        = predictLoop (CashFlowPredictor.init c).inputs ms b := by
  intro ms
  induction ms with
  | nil => intro b _; rfl
  | cons m ms ih =>
    intro b hms
    rw [predictLoop_cons, predictLoop_cons,
      predictStep_frame_income c t b m (hms m (List.mem_cons_self m ms)),
      ih _ (fun m' hm' => hms m' (List.mem_cons_of_mem m hm'))]

theorem predictLoop_frame_expense (c : CashFlowInput) (t : Transaction) :
    ∀ (ms : List ℕ) (b : ℝ), (∀ m ∈ ms, t.month ≠ m) →
      predictLoop (CashFlowPredictor.init { c with one_time_expenses := c.one_time_expenses ++ [t] }).inputs ms b
        = predictLoop (CashFlowPredictor.init c).inputs ms b := by
  intro ms
  induction ms with
  | nil => intro b _; rfl
  | cons m ms ih =>
    intro b hms
    rw [predictLoop_cons, predictLoop_cons,
      predictStep_frame_expense c t b m (hms m (List.mem_cons_self m ms)),
      ih _ (fun m' hm' => hms m' (List.mem_cons_of_mem m hm'))]

/-- Claim C7. Each one-time transaction affects exactly the month equal to
its `month` field: for every projected month `m ≥ 1` the one-time income
(resp. expense) total added to the snapshot is the sum of the amounts of
the transactions with `month == m`, the breakdown key `"one_time"` is
added exactly when that sum is positive (independently for income and
expenses), and a transaction whose month exceeds the horizon is silently
never applied (the projection is unchanged, no error). -/
theorem C7_one_time_transactions (c : CashFlowInput) (t : Transaction)
    (h : c.prediction_months < t.month) :
    List.Forall
      (fun q => q.month ≠ 0 →
        q.income = (calculate_monthly_income (CashFlowPredictor.init c).inputs q.month).1
            + ((c.one_time_income.filter (fun tr => tr.month == q.month)).map
                Transaction.amount).sum ∧
        q.expenses = (calculate_monthly_expense (CashFlowPredictor.init c).inputs q.month).1
            + ((c.one_time_expenses.filter (fun tr => tr.month == q.month)).map
                Transaction.amount).sum ∧
        q.income_breakdown =
          (if ((c.one_time_income.filter (fun tr => tr.month == q.month)).map
                Transaction.amount).sum > 0 then
            dictSet (calculate_monthly_income (CashFlowPredictor.init c).inputs q.month).2
              "one_time"
              ((c.one_time_income.filter (fun tr => tr.month == q.month)).map
                Transaction.amount).sum
          else (calculate_monthly_income (CashFlowPredictor.init c).inputs q.month).2) ∧
        q.expense_breakdown =
          (if ((c.one_time_expenses.filter (fun tr => tr.month == q.month)).map
                Transaction.amount).sum > 0 then
            dictSet (calculate_monthly_expense (CashFlowPredictor.init c).inputs q.month).2
              "one_time"
              ((c.one_time_expenses.filter (fun tr => tr.month == q.month)).map
                Transaction.amount).sum
          else (calculate_monthly_expense (CashFlowPredictor.init c).inputs q.month).2))
      (projectFresh c) ∧
    projectFresh { c with one_time_income := c.one_time_income ++ [t] } = projectFresh c ∧
    projectFresh { c with one_time_expenses := c.one_time_expenses ++ [t] } = projectFresh c := by
  refine ⟨?_, ?_, ?_⟩
  · apply projectFresh_forall
    intro b m hm
    rw [predictStep_month] at hm
    unfold predictStep
    rw [if_neg hm]
    exact ⟨rfl, rfl, rfl, rfl⟩
  · rw [projectFresh_eq { c with one_time_income := c.one_time_income ++ [t] },
      projectFresh_eq c]
    exact predictLoop_frame_income c t _ _
      (fun m hm => Nat.ne_of_gt (lt_of_lt_of_le (List.mem_range.mp hm) h))
  · rw [projectFresh_eq { c with one_time_expenses := c.one_time_expenses ++ [t] },
      projectFresh_eq c]
    exact predictLoop_frame_expense c t _ _
      (fun m hm => Nat.ne_of_gt (lt_of_lt_of_le (List.mem_range.mp hm) h))



/-- Witness for C7 at a concrete input: the transaction month `5` exceeds
the horizon `1`, and adding it to either one-time list leaves the
projection unchanged. -/
theorem C7_one_time_transactions_witness :
    cfg7.prediction_months < txn7.month ∧
    projectFresh { cfg7 with one_time_income := cfg7.one_time_income ++ [txn7] }
      = projectFresh cfg7 ∧
    projectFresh { cfg7 with one_time_expenses := cfg7.one_time_expenses ++ [txn7] }
      = projectFresh cfg7 :=
  ⟨by norm_num [cfg7, txn7],
   (C7_one_time_transactions cfg7 txn7 (by norm_num [cfg7, txn7])).2.1,
   (C7_one_time_transactions cfg7 txn7 (by norm_num [cfg7, txn7])).2.2⟩

/-! ## Volatility (C8) -/

/-- Claim C8, amended. The summary's `volatility_score` equals the
population standard deviation of the closing-balance series divided by
its mean when the sequence has at least 2 snapshots *and the mean is
strictly positive*; otherwise it is `0` (in particular when the mean is
zero **or negative**, or fewer than 2 snapshots exist; it can also be `0`
with a positive mean when the series is constant). -/
theorem C8_volatility_amended (inp : CashFlowInput) (preds : List MonthlyPrediction)
    (q : MonthlyPrediction) (h : preds.getLast? = some q) :
    ∃ s, summarize inp preds = some s ∧
      s.volatility_score =
        (if 1 < preds.length ∧ 0 < mean (preds.map MonthlyPrediction.closing_balance) then
          popStdDev (preds.map MonthlyPrediction.closing_balance)
            / mean (preds.map MonthlyPrediction.closing_balance)
        else 0) := by
  unfold summarize
  rw [h]
  refine ⟨_, rfl, ?_⟩
  by_cases h1 : 1 < preds.length
  · by_cases h2 : 0 < mean (preds.map MonthlyPrediction.closing_balance)
    · simp [h1, h2]
    · simp [h1, h2]
  · have h1' : ¬ 1 < (preds.map MonthlyPrediction.closing_balance).length := by
      simpa using h1
    simp [h1, h1']

/-- Witness for C8 (amended) at a concrete input. -/
theorem C8_volatility_amended_witness :
    ([snap8].getLast? = some snap8) ∧
    ∃ s, summarize cfg8w [snap8] = some s ∧
      s.volatility_score =
        (if 1 < ([snap8] : List MonthlyPrediction).length ∧
            0 < mean ([snap8].map MonthlyPrediction.closing_balance) then
          popStdDev ([snap8].map MonthlyPrediction.closing_balance)
            / mean ([snap8].map MonthlyPrediction.closing_balance)
        else 0) :=
  ⟨rfl, C8_volatility_amended cfg8w [snap8] snap8 rfl⟩

/-- Behavior of `get_summary` on a freshly constructed predictor (empty stored list):
it projects first, then summarizes the projection. -/
theorem get_summary_init (c : CashFlowInput) :
    (CashFlowPredictor.init c).get_summary
      = (summarize (CashFlowPredictor.init c).inputs (projectFresh c)).map
          (fun s => (s, ((CashFlowPredictor.init c).predict).2)) := by
  show (match summarize (CashFlowPredictor.init c).inputs (projectFresh c) with
        | none => none
        | some s => some (s, ((CashFlowPredictor.init c).predict).2))
      = (summarize (CashFlowPredictor.init c).inputs (projectFresh c)).map
          (fun s => (s, ((CashFlowPredictor.init c).predict).2))
  cases summarize (CashFlowPredictor.init c).inputs (projectFresh c) <;> rfl

/-- Projection of `summarize`: `volatility_score` paired with the
closing-balance series of an arbitrary companion predictor state. -/
theorem summarize_vol_pair (inp : CashFlowInput) (preds : List MonthlyPrediction)
    (q : MonthlyPrediction) (h : preds.getLast? = some q) (P : CashFlowPredictor) :
    ((summarize inp preds).map (fun s => (s, P))).map
        (fun x => (x.1.volatility_score, x.2.predictions.map MonthlyPrediction.closing_balance))
      = some ((if 1 < (preds.map MonthlyPrediction.closing_balance).length then
          (if 0 < mean (preds.map MonthlyPrediction.closing_balance) then
            popStdDev (preds.map MonthlyPrediction.closing_balance)
              / mean (preds.map MonthlyPrediction.closing_balance) else 0) else 0),
          P.predictions.map MonthlyPrediction.closing_balance) := by
  unfold summarize
  rw [h]
  rfl


/-- Counterexample for claim C8. On balances `[1, -4]` (two snapshots, mean
`-3/2 ≠ 0`) the code's `volatility_score` is `0` because the mean is not
positive, while the claimed value `std/mean = (5/2)/(-3/2)` is nonzero —
so `volatility_score` neither equals `std/mean` here nor is `0` exactly
when the mean is `0` or fewer than 2 snapshots exist. -/
theorem C8_counterexample :
    (((CashFlowPredictor.init cfg8).get_summary).map
        (fun x => (x.1.volatility_score, x.2.predictions.map MonthlyPrediction.closing_balance)))
      = some (0, [1, -4]) ∧
    mean [1, -4] ≠ 0 ∧
    1 < ([(1 : ℝ), -4] : List ℝ).length ∧
    popStdDev [1, -4] / mean [1, -4] ≠ 0 := by
  have hmean : mean [(1 : ℝ), -4] = -(3 / 2) := by
    norm_num [mean]
  have hstd : popStdDev [(1 : ℝ), -4] = 5 / 2 := by
    unfold popStdDev
    rw [hmean]
    have hv : ((([(1 : ℝ), -4].map (fun x => (x - -(3 / 2)) ^ 2)).sum)
        / (([(1 : ℝ), -4].length : ℕ) : ℝ)) = (5 / 2) ^ 2 := by
      norm_num
    rw [hv, Real.sqrt_sq (by norm_num : (0 : ℝ) ≤ 5 / 2)]
  refine ⟨?_, by rw [hmean]; norm_num, by norm_num, by rw [hstd, hmean]; norm_num⟩
  have hq1 : (predictStep (CashFlowPredictor.init cfg8).inputs 1 1).closing_balance = -4 := by
    norm_num [predictStep, calculate_monthly_income, calculate_monthly_expense,
      get_one_time_transactions, CashFlowPredictor.init, cfg8]
  have hq0 : (predictStep (CashFlowPredictor.init cfg8).inputs 1 0).closing_balance = 1 := rfl
  have hbal : (projectFresh cfg8).map MonthlyPrediction.closing_balance = [1, -4] := by
    rw [show projectFresh cfg8
        = [predictStep (CashFlowPredictor.init cfg8).inputs 1 0,
           predictStep (CashFlowPredictor.init cfg8).inputs 1 1] from rfl]
    rw [List.map_cons, List.map_cons, List.map_nil, hq0, hq1]
  have hgl : (projectFresh cfg8).getLast?
      = some (predictStep (CashFlowPredictor.init cfg8).inputs 1 1) := rfl
  rw [get_summary_init, summarize_vol_pair _ _ _ hgl _,
    show (((CashFlowPredictor.init cfg8).predict).2).predictions = projectFresh cfg8 from rfl,
    hbal, hmean]
  norm_num

/-! ## Aggregator entry on an empty snapshot sequence (C1) -/

theorem summarize_projectFresh_isSome (c : CashFlowInput) :
    ∃ s, summarize (CashFlowPredictor.init c).inputs (projectFresh c) = some s := by
  obtain ⟨q, hq⟩ :=
    Option.isSome_iff_exists.mp (List.getLast?_isSome.mpr (projectFresh_ne_nil c))
  unfold summarize
  rw [hq]
  exact ⟨_, rfl⟩

/-- Claim C1, amended. On an empty snapshot sequence, `get_summary` does
not fail with an `InvalidInput` error: it silently triggers a projection
itself (running `predict`) and then summarizes the freshly projected
sequence. -/
theorem C1_get_summary_autoprojects (c : CashFlowInput) :
    ((CashFlowPredictor.init c).get_summary).isSome = true ∧
    ((CashFlowPredictor.init c).get_summary).map (fun x => x.2.predictions)
      = some (projectFresh c) := by
  obtain ⟨s, hs⟩ := summarize_projectFresh_isSome c
  rw [get_summary_init, hs]
  exact ⟨rfl, rfl⟩


/-- Counterexample for claim C1. On a fresh predictor with an empty snapshot
sequence, `get_summary` returns a summary (no error of any kind) and the
post-call state holds 1 freshly produced snapshot — it computed a
projection itself instead of failing with `InvalidInput`. -/
theorem C1_counterexample :
    (CashFlowPredictor.init cfg1).predictions.length = 0 ∧
    ((CashFlowPredictor.init cfg1).get_summary).isSome = true ∧
    ((CashFlowPredictor.init cfg1).get_summary).map (fun x => x.2.predictions.length)
      = some 1 := by
  obtain ⟨s, hs⟩ := summarize_projectFresh_isSome cfg1
  rw [get_summary_init, hs]
  exact ⟨rfl, rfl, rfl⟩

/-! ## Config ownership (C9) -/

/-- Claim C9, amended. The engine writes to the caller's (aliased) config
object only at construction: when `critical_threshold` is unset it is set
to `warning_threshold × 0.5` on the caller's config, every other field is
preserved; `predict` and `get_summary` leave the config unchanged. -/
theorem C9_config_ownership_amended (c : CashFlowInput) :
    (CashFlowPredictor.init c).inputs
      = { c with critical_threshold := some (c.critical_threshold.getD (c.warning_threshold * 0.5)) } ∧
    (((CashFlowPredictor.init c).predict).2).inputs = (CashFlowPredictor.init c).inputs ∧
    ((CashFlowPredictor.init c).get_summary).map (fun x => x.2.inputs)
      = some (CashFlowPredictor.init c).inputs := by
  obtain ⟨s, hs⟩ := summarize_projectFresh_isSome c
  rw [get_summary_init, hs]
  exact ⟨init_inputs c, rfl, rfl⟩


/-- Counterexample for claim C9. The caller constructs the engine with
`critical_threshold = None`; `__init__` assigns
`self.inputs.critical_threshold = warning_threshold * 0.5`, and
`self.inputs` *is* the caller's config object (plain attribute aliasing),
so the caller's config now reads `critical_threshold = 2.0` — a field of
the supplied config was modified by an engine operation. -/
theorem C9_counterexample :
    cfg9.critical_threshold = none ∧
    (CashFlowPredictor.init cfg9).inputs.critical_threshold = some 2 := by
  constructor
  · rfl
  · show some (cfg9.critical_threshold.getD (cfg9.warning_threshold * 0.5)) = some 2
    norm_num [cfg9]

/-! ## Repeated `predict` calls and downstream consumers (C10) -/

theorem predict_inputs (p : CashFlowPredictor) : (p.predict).2.inputs = p.inputs := rfl

theorem predict_predictions (p : CashFlowPredictor) :
    ((p.predict).2).predictions
      = p.predictions ++ predictLoop p.inputs
          (List.range (p.inputs.prediction_months + 1)) p.inputs.current_balance := rfl

theorem predict_fst (p : CashFlowPredictor) : (p.predict).1 = (p.predict).2.predictions := rfl

theorem predictIter_inputs (p : CashFlowPredictor) :
    ∀ (k : ℕ), (predictIter p k).inputs = p.inputs := by
  intro k
  induction k with
  | zero => rfl
  | succ k ih =>
    rw [show predictIter p (k + 1) = ((predictIter p k).predict).2 from rfl,
      predict_inputs, ih]

theorem flatten_replicate_snoc {α : Type} (k : ℕ) (l : List α) :
    (List.replicate k l).flatten ++ l = (List.replicate (k + 1) l).flatten := by
  induction k with
  | zero => simp
  | succ k ih =>
    calc (List.replicate (k + 1) l).flatten ++ l
        = l ++ ((List.replicate k l).flatten ++ l) := by
          simp [List.replicate_succ, List.flatten_cons, List.append_assoc]
      _ = l ++ (List.replicate (k + 1) l).flatten := by rw [ih]
      _ = (List.replicate (k + 1 + 1) l).flatten := by
          simp [List.replicate_succ, List.flatten_cons]

theorem flatten_replicate_length {α : Type} (k : ℕ) (l : List α) :
    ((List.replicate k l).flatten).length = k * l.length := by
  induction k with
  | zero => simp
  | succ k ih =>
    simp [List.replicate_succ, List.flatten_cons, ih, Nat.succ_mul, Nat.add_comm]

theorem predictIter_init_predictions (c : CashFlowInput) :
    ∀ (k : ℕ), (predictIter (CashFlowPredictor.init c) k).predictions
      = (List.replicate k (projectFresh c)).flatten := by
  intro k
  induction k with
  | zero => rfl
  | succ k ih =>
    rw [show predictIter (CashFlowPredictor.init c) (k + 1)
        = ((predictIter (CashFlowPredictor.init c) k).predict).2 from rfl,
      predict_predictions, ih, predictIter_inputs,
      show predictLoop (CashFlowPredictor.init c).inputs
        (List.range ((CashFlowPredictor.init c).inputs.prediction_months + 1))
        (CashFlowPredictor.init c).inputs.current_balance = projectFresh c from rfl]
    exact flatten_replicate_snoc k _

theorem isEmpty_false_of_ne_nil {α : Type} (l : List α) (h : l ≠ []) : l.isEmpty = false := by
  cases l with
  | nil => exact absurd rfl h
  | cons a l => rfl

theorem get_chart_data_of_ne_nil (p : CashFlowPredictor) (h : p.predictions ≠ []) :
    p.get_chart_data
      = ({ labels := p.predictions.map MonthlyPrediction.date
           balance := p.predictions.map MonthlyPrediction.closing_balance
           income := p.predictions.map MonthlyPrediction.income
           expenses := p.predictions.map MonthlyPrediction.expenses
           net_flow := p.predictions.map MonthlyPrediction.net_flow
           predicted_vs_actual :=
             p.predictions.map (fun r => (r.date, r.closing_balance)) }, p) := by
  unfold CashFlowPredictor.get_chart_data
  rw [isEmpty_false_of_ne_nil _ h]
  rfl

theorem get_summary_of_ne_nil (p : CashFlowPredictor) (h : p.predictions ≠ []) :
    p.get_summary = (summarize p.inputs p.predictions).map (fun s => (s, p)) := by
  unfold CashFlowPredictor.get_summary
  rw [isEmpty_false_of_ne_nil _ h]
  show (match summarize p.inputs p.predictions with
        | none => none
        | some s => some (s, p)) = _
  cases summarize p.inputs p.predictions <;> rfl

theorem summarize_ne_nil_isSome (inp : CashFlowInput) (preds : List MonthlyPrediction)
    (h : preds ≠ []) : ∃ s, summarize inp preds = some s := by
  obtain ⟨q, hq⟩ := Option.isSome_iff_exists.mp (List.getLast?_isSome.mpr h)
  unfold summarize
  rw [hq]
  exact ⟨_, rfl⟩

theorem summarize_total_income (inp : CashFlowInput) (preds : List MonthlyPrediction)
    (q : MonthlyPrediction) (hq : preds.getLast? = some q) (s : ForecastSummary)
    (hs : summarize inp preds = some s) :
    s.total_income = (preds.map MonthlyPrediction.income).sum := by
  have h : (summarize inp preds).map ForecastSummary.total_income
      = some ((preds.map MonthlyPrediction.income).sum) := by
    unfold summarize
    rw [hq]
    rfl
  rw [hs] at h
  simpa using h

theorem get_income_pie_of_ne_nil (p : CashFlowPredictor) (h : p.predictions ≠ [])
    (s : ForecastSummary) (hs : summarize p.inputs p.predictions = some s) :
    p.get_income_pie_chart_data
      = some ((s.income_by_category.map (fun e =>
          (e.1, e.2, if 0 < s.total_income then e.2 / s.total_income * 100 else 0))), p) := by
  unfold CashFlowPredictor.get_income_pie_chart_data
  rw [get_summary_of_ne_nil p h, hs]
  rfl

theorem to_json_predictions_of_ne_nil (p : CashFlowPredictor) (h : p.predictions ≠ []) :
    (p.to_json).map (fun x => x.1.predictions) = some p.predictions := by
  obtain ⟨s, hs⟩ := summarize_ne_nil_isSome p.inputs p.predictions h
  have hsum : p.get_summary = some (s, p) := by
    rw [get_summary_of_ne_nil p h, hs]
    rfl
  unfold CashFlowPredictor.to_json
  rw [isEmpty_false_of_ne_nil _ h]
  simp only [Bool.false_eq_true, if_false, hsum, get_chart_data_of_ne_nil p h,
    get_income_pie_of_ne_nil p h s hs, Option.map_some']

/-- Claim C10. `predict` appends to the stored prediction list without
clearing it: after `k` calls on one instance the stored list is `k`
concatenated copies of the fresh projection (so the `(k+1)`-st call
returns `(k+1) × (horizon+1)` snapshots whose month indices restart at
`0` each cycle), and subsequent `get_chart_data`, `get_summary` and
`to_json` calls consume the whole accumulated list, not a single
projection. -/
theorem C10_predict_accumulates (c : CashFlowInput) (k : ℕ) :
    (predictIter (CashFlowPredictor.init c) k).predictions
        = (List.replicate k (projectFresh c)).flatten ∧
    (predictIter (CashFlowPredictor.init c) k).predictions.length
        = k * (c.prediction_months + 1) ∧
    (predictIter (CashFlowPredictor.init c) k).predictions.map MonthlyPrediction.month
        = (List.replicate k (List.range (c.prediction_months + 1))).flatten ∧
    ((predictIter (CashFlowPredictor.init c) k).predict).1
        = (List.replicate (k + 1) (projectFresh c)).flatten ∧
    ((predictIter (CashFlowPredictor.init c) (k + 1)).get_chart_data).1.balance
        = (predictIter (CashFlowPredictor.init c) (k + 1)).predictions.map
            MonthlyPrediction.closing_balance ∧
    ((predictIter (CashFlowPredictor.init c) (k + 1)).get_summary).map
        (fun x => (x.1.total_income, x.2.predictions))
      = some ((((predictIter (CashFlowPredictor.init c) (k + 1)).predictions.map
            MonthlyPrediction.income).sum,
          (predictIter (CashFlowPredictor.init c) (k + 1)).predictions)) ∧
    ((predictIter (CashFlowPredictor.init c) (k + 1)).to_json).map
        (fun x => x.1.predictions)
      = some ((predictIter (CashFlowPredictor.init c) (k + 1)).predictions) := by
  have hne : (predictIter (CashFlowPredictor.init c) (k + 1)).predictions ≠ [] := by
    rw [predictIter_init_predictions c (k + 1), List.replicate_succ, List.flatten_cons]
    intro hcontra
    exact projectFresh_ne_nil c (List.append_eq_nil.mp hcontra).1
  refine ⟨predictIter_init_predictions c k, ?_, ?_, ?_, ?_, ?_,
    to_json_predictions_of_ne_nil _ hne⟩
  · rw [predictIter_init_predictions c k, flatten_replicate_length, projectFresh_length]
  · rw [predictIter_init_predictions c k, List.map_flatten, List.map_replicate,
      show (projectFresh c).map MonthlyPrediction.month
        = List.range (c.prediction_months + 1) by rw [projectFresh_eq, predictLoop_map_month]]
  · rw [predict_fst, predict_predictions, predictIter_init_predictions c k,
      predictIter_inputs,
      show predictLoop (CashFlowPredictor.init c).inputs
        (List.range ((CashFlowPredictor.init c).inputs.prediction_months + 1))
        (CashFlowPredictor.init c).inputs.current_balance = projectFresh c from rfl]
    exact flatten_replicate_snoc k _
  · rw [get_chart_data_of_ne_nil _ hne]
  · obtain ⟨q, hq⟩ := Option.isSome_iff_exists.mp (List.getLast?_isSome.mpr hne)
    obtain ⟨s, hs⟩ := summarize_ne_nil_isSome _ _ hne
    rw [get_summary_of_ne_nil _ hne, hs, Option.map_some', Option.map_some',
      summarize_total_income _ _ q hq s hs]
